import Mathlib

/-!
Verification of the core logic of the `polar_sh_dash` dashboard:
the product payload builder `build_product_payload_simple` together with its
helpers `_as_int_cents`, `_is_uuid` and Python's `str.strip`, and the request
gateway `PolarAPI._make_request` with its error shaping.  All definitions are
shallow embeddings of the Python source in `src/polar_sh_dash.py`.
-/

namespace PolarDash

/-- Characters removed by Python's `str.strip()` (ASCII whitespace set). -/
def pyWhitespace (c : Char) : Bool :=
  c == ' ' || c == '\t' || c == '\n' || c == '\r' || c == '\x0b' || c == '\x0c'

/-- Python's `s.strip()`: drop leading and trailing whitespace. -/
def pyStrip (s : String) : String :=
  String.mk (((s.data.dropWhile pyWhitespace).reverse.dropWhile pyWhitespace).reverse)

/-- Numeric value of a run of decimal digits (empty run has value 0, matching
the truncation `int(float("0.5")) = 0` where the integer part is `"0"`). -/
def decDigitsVal (l : List Char) : Nat :=
  l.foldl (fun acc c => acc * 10 + (c.toNat - 48)) 0

/-- Parse an unsigned decimal numeral (`digits`, `digits.digits`, `.digits`,
`digits.`) and truncate toward zero by discarding the fractional digits.
Any other shape is not a numeral and yields `none`. -/
def parseUnsignedTrunc (l : List Char) : Option Nat :=
  let intPart := l.takeWhile Char.isDigit
  let rest := l.dropWhile Char.isDigit
  match rest with
  | [] => if intPart.isEmpty then none else some (decDigitsVal intPart)
  | '.' :: frac =>
      if frac.all Char.isDigit && (!intPart.isEmpty || !frac.isEmpty) then
        some (decDigitsVal intPart)
      else none
  | _ => none

/-- Parse an optionally signed decimal numeral, truncating toward zero
(`int(float(s))` on a decimal literal: `"-7.9"` gives `-7`). -/
def parseDecTrunc (l : List Char) : Option Int :=
  match l with
  | '-' :: rest => (parseUnsignedTrunc rest).map (fun n => -(n : Int))
  | '+' :: rest => (parseUnsignedTrunc rest).map (fun n => (n : Int))
  | rest => (parseUnsignedTrunc rest).map (fun n => (n : Int))

/-- Embedding of `_as_int_cents` (src lines 200-207):
`None`/blank give `None`; otherwise `int(float(str(v).strip()))`, i.e. the
stripped decimal numeral truncated toward zero, with non-numeral input giving
`None` through the `except` branch.  The model parses decimal numerals with
exact precision; the double-rounding and overflow of the `float` detour on
pathological literals are not modelled. -/
def _as_int_cents (v : Option String) : Option Int :=
  match v with
  | none => none
  | some s => if pyStrip s = "" then none else parseDecTrunc (pyStrip s).data

/-- Hexadecimal digit, upper or lower case (regex class `[0-9a-fA-F]`). -/
def isHexChar (c : Char) : Bool :=
  c.isDigit || ('a' ≤ c && c ≤ 'f') || ('A' ≤ c && c ≤ 'F')

/-- A dash-free group of exactly `n` hex digits. -/
def hexGroup (g : List Char) (n : Nat) : Bool :=
  g.length == n && g.all isHexChar

/-- First character of the third UUID group must be in `[1-5]`. -/
def versionNibble : List Char → Bool
  | c :: _ => '1' ≤ c && c ≤ '5'
  | [] => false

/-- First character of the fourth UUID group must be in `[89abAB]`. -/
def variantNibble : List Char → Bool
  | c :: _ => c == '8' || c == '9' || c == 'a' || c == 'b' || c == 'A' || c == 'B'
  | [] => false

/-- Embedding of `_is_uuid` (src lines 195-198): the stripped string must
fully match `UUID_RE`, i.e. hex groups of sizes 8-4-4-4-12 joined by dashes,
with the version nibble in `1-5` and the variant nibble in `8|9|a|b` (either
case). -/
def _is_uuid (s : String) : Bool :=
  match (pyStrip s).data.splitOn '-' with
  | [g1, g2, g3, g4, g5] =>
      hexGroup g1 8 && hexGroup g2 4 && hexGroup g3 4 && hexGroup g4 4 &&
      hexGroup g5 12 && versionNibble g3 && variantNibble g4
  | _ => false

/-- JSON-like values, modelling the Python dicts/lists the source builds. -/
inductive JValue where
  | null
  | bool (b : Bool)
  | str (s : String)
  | int (n : Int)
  | arr (items : List JValue)
  | obj (fields : List (String × JValue))

/-- `k in data` for a dict value (`False` for non-dicts, matching the
`isinstance(data, dict)` guard in `format_json_output`). -/
def JValue.hasKey : JValue → String → Bool
  | .obj fs, k => fs.any (fun p => p.1 == k)
  | _, _ => false

/-- `data[k]` lookup for a dict value. -/
def JValue.getKey : JValue → String → Option JValue
  | .obj fs, k => (fs.find? (fun p => p.1 == k)).map Prod.snd
  | _, _ => none

/-- One price specification dict appended to `prices`
(src lines 242-246, 255-262, 264, 273-283). -/
inductive Price where
  | fixed (price_amount : Int)
  | custom (minimum_amount maximum_amount preset_amount : Option Int)
  | free
  | metered (meter_id : String) (unit_amount : String) (cap_amount : Option Int)
deriving DecidableEq

/-- `True` exactly for the metered price dict (`amount_type = "metered_unit"`). -/
def Price.isMetered : Price → Bool
  | .metered _ _ _ => true
  | _ => false

/-- The payload dict assembled at src lines 286-296.  `description = none`
stands for the key being present with value `null`; `organization_id = none`
stands for the key being absent (see `ProductPayload.toJson`). -/
structure ProductPayload where
  name : String
  description : Option String
  recurring_interval : Option String
  prices : List Price
  organization_id : Option String
deriving DecidableEq

/-- The thirteen parameters of `build_product_payload_simple`
(src lines 209-223). -/
structure BuilderInput where
  name : String
  description : String
  plan : String
  price_type : String
  fixed_amount : Option String
  custom_min : Option String
  custom_max : Option String
  custom_preset : Option String
  org_id : String
  enable_metered : Bool
  meter_id : String
  unit_amount : Option String
  cap_amount : Option String

/-- Plan dispatch (src lines 227-232): `one_time` means no recurring interval,
`month`/`year` are taken as the interval, anything else is invalid (`none`). -/
def planInterval (plan : String) : Option (Option String) :=
  if plan = "one_time" then some none
  else if plan = "month" ∨ plan = "year" then some (some plan)
  else none

/-- `min_c is not None and min_c < 50` (src line 251). -/
def lowOpt : Option Int → Bool
  | some n => decide (n < 50)
  | none => false

/-- `min_c is not None and max_c is not None and min_c > max_c` (src line 253). -/
def minOverMax : Option Int → Option Int → Bool
  | some a, some b => decide (b < a)
  | _, _ => false

/-- The base price specification (src lines 238-264): `fixed` needs a parsed
amount of at least 50 cents; `custom` checks each supplied bound against 50
and minimum against maximum; everything else (only `free` reaches here) is the
free price. -/
def basePrice (i : BuilderInput) : Except String Price :=
  if i.price_type = "fixed" then
    match _as_int_cents i.fixed_amount with
    | none => .error "Fixed price (cents) wajib diisi, min 50."
    | some cents =>
        if cents < 50 then .error "Fixed price (cents) wajib diisi, min 50."
        else .ok (.fixed cents)
  else if i.price_type = "custom" then
    let min_c := _as_int_cents i.custom_min
    let max_c := _as_int_cents i.custom_max
    let preset_c := _as_int_cents i.custom_preset
    if lowOpt min_c || lowOpt max_c || lowOpt preset_c then
      .error "Custom price: minimum/maximum/preset harus ≥ 50 bila diisi."
    else if minOverMax min_c max_c then
      .error "Custom price: minimum tidak boleh > maximum."
    else .ok (.custom min_c max_c preset_c)
  else .ok .free

/-- The metered block (src lines 266-284): when enabled it demands a recurring
interval, a present UUID `meter_id`, a present non-blank `unit_amount` (kept
as a stripped string), and a `cap_amount` that, when it parses at all, is
non-negative; a parsed cap is attached, an unparsable one is dropped. -/
def meteredPrice (i : BuilderInput) (recurring_interval : Option String) :
    Except String (Option Price) :=
  if i.enable_metered then
    match recurring_interval with
    | none => .error "Produk one-time TIDAK boleh punya metered price."
    | some _ =>
        if i.meter_id = "" ∨ ¬ _is_uuid i.meter_id then
          .error "meter_id harus UUID valid."
        else
          match i.unit_amount with
          | none => .error "unit_amount (cents) wajib diisi untuk metered."
          | some u =>
              if pyStrip u = "" then
                .error "unit_amount (cents) wajib diisi untuk metered."
              else
                match _as_int_cents i.cap_amount with
                | some cap =>
                    if cap < 0 then .error "cap_amount tidak boleh negatif."
                    else .ok (some (.metered (pyStrip i.meter_id) (pyStrip u) (some cap)))
                | none => .ok (some (.metered (pyStrip i.meter_id) (pyStrip u) none))
  else .ok none

/-- The organization id block (src lines 293-296): a present, non-blank
`org_id` must be a UUID and is attached stripped; an empty or blank one is
skipped entirely. -/
def orgField (org_id : String) : Except String (Option String) :=
  if org_id ≠ "" ∧ pyStrip org_id ≠ "" then
    if ¬ _is_uuid org_id then .error "organization_id harus UUID valid."
    else .ok (some (pyStrip org_id))
  else .ok none

/-- The dict literal of src lines 286-291 plus the conditional
`organization_id` of line 296, with the metered price appended second. -/
def mkPayload (i : BuilderInput) (recurring_interval : Option String)
    (base : Price) (metered : Option Price) (org : Option String) : ProductPayload :=
  { name := pyStrip i.name
  , description := if i.description = "" then none else some i.description
  , recurring_interval := recurring_interval
  , prices := base :: (match metered with | some m => [m] | none => [])
  , organization_id := org }

/-- Steps of `build_product_payload_simple` after the name and plan checks
(src lines 234-298): price-type dispatch, base price, metered block,
organization id, then payload assembly.  Errors propagate in source order. -/
def buildWithInterval (i : BuilderInput) (recurring_interval : Option String) :
    Except String ProductPayload :=
  if i.price_type = "fixed" ∨ i.price_type = "custom" ∨ i.price_type = "free" then
    match basePrice i with
    | .error e => .error e
    | .ok base =>
        match meteredPrice i recurring_interval with
        | .error e => .error e
        | .ok metered =>
            match orgField i.org_id with
            | .error e => .error e
            | .ok org => .ok (mkPayload i recurring_interval base metered org)
  else .error "Tipe harga tidak valid (fixed | custom | free)."

/-- Embedding of `build_product_payload_simple` (src lines 209-298).
A raised `ValueError` is the `Except.error` case; the returned dict is the
`Except.ok` case. -/
def build_product_payload_simple (i : BuilderInput) : Except String ProductPayload :=
  if i.name = "" ∨ (pyStrip i.name).length < 3 then
    .error "Name minimal 3 karakter."
  else
    match planInterval i.plan with
    | none => .error "Plan tidak valid (one_time | month | year)."
    | some r => buildWithInterval i r

/-- `[(k, n)]` when the optional amount is supplied, `[]` when it is omitted
(the conditional key insertions at src lines 256-261, 280-283). -/
def optIntField (k : String) : Option Int → List (String × JValue)
  | some n => [(k, .int n)]
  | none => []

/-- The dict underlying each price specification. -/
def Price.toJson : Price → JValue
  | .fixed a =>
      .obj [("amount_type", .str "fixed"), ("price_currency", .str "usd"),
            ("price_amount", .int a)]
  | .custom mn mx pre =>
      .obj ([("amount_type", .str "custom"), ("price_currency", .str "usd")] ++
            optIntField "minimum_amount" mn ++ optIntField "maximum_amount" mx ++
            optIntField "preset_amount" pre)
  | .free => .obj [("amount_type", .str "free")]
  | .metered m u cap =>
      .obj ([("amount_type", .str "metered_unit"), ("meter_id", .str m),
             ("price_currency", .str "usd"), ("unit_amount", .str u)] ++
            optIntField "cap_amount" cap)

/-- The payload dict (src lines 286-296): `description` and
`recurring_interval` keys are always present (possibly `null`), while the
`organization_id` key exists only when an organization id was attached. -/
def ProductPayload.toJson (p : ProductPayload) : JValue :=
  .obj ([("name", .str p.name),
         ("description", match p.description with | some d => .str d | none => .null),
         ("recurring_interval",
          match p.recurring_interval with | some r => .str r | none => .null),
         ("prices", .arr (p.prices.map Price.toJson))] ++
        (match p.organization_id with | some o => [("organization_id", .str o)] | none => []))

/-- What the HTTP layer hands back to `_make_request`: either a response with
a status code, a body text, and the value `response.json()` would produce on
that body (`none` when decoding raises — in the requests library that raised
decode error is a `RequestException` carrying no response), or a transport
failure with no response at all. -/
inductive HttpOutcome where
  | response (status : Nat) (text : String) (json : Option JValue)
  | failure (msg : String)

/-- Python's `str.upper()` on the ASCII method strings: uppercase every
character. -/
def pyUpper (s : String) : String :=
  String.mk (s.data.map Char.toUpper)

/-- The verb dispatch of src lines 27-36: `method.upper()` must be one of the
four supported verbs, else no call is attempted. -/
def supportedMethod (method : String) : Bool :=
  pyUpper method == "GET" || pyUpper method == "POST" ||
  pyUpper method == "PUT" || pyUpper method == "DELETE"

/-- Embedding of `PolarAPI._make_request` (src lines 23-47).
`raise_for_status` raises exactly for statuses 400-599, and that error (like
a transport failure or a body-decode failure) lands in the `except` branch
producing the error dict of lines 43-47; a non-error status with a blank body
yields the status-only dict of line 40, otherwise the decoded body itself is
returned.  The human-readable message texts of the underlying exceptions are
modelled schematically; no claim constrains them. -/
def _make_request (method : String) (outcome : HttpOutcome) : JValue :=
  if supportedMethod method then
    match outcome with
    | .failure msg =>
        .obj [("error", .str msg), ("status_code", .null), ("body", .null)]
    | .response status text json =>
        if 400 ≤ status ∧ status < 600 then
          .obj [("error", .str ("HTTP error " ++ toString status)),
                ("status_code", .int (status : Int)), ("body", .str text)]
        else if pyStrip text = "" then
          .obj [("status", .int (status : Int))]
        else
          match json with
          | some v => v
          | none =>
              .obj [("error", .str "Invalid JSON body"),
                    ("status_code", .null), ("body", .null)]
  else
    .obj [("error", .str ("Unsupported method " ++ method))]

/-- The error discriminator of `format_json_output` (src line 152):
`isinstance(data, dict) and "error" in data`. -/
def isErrorResult (r : JValue) : Bool := r.hasKey "error"

/-- Whether `_make_request` returns through one of its error paths
(unsupported verb, transport failure, 4xx/5xx status, or JSON decode
failure on a non-blank body). -/
def requestErrorPath (method : String) (outcome : HttpOutcome) : Bool :=
  if supportedMethod method then
    match outcome with
    | .failure _ => true
    | .response status text json =>
        if 400 ≤ status ∧ status < 600 then true
        else if pyStrip text = "" then false
        else json.isNone
  else true

/-- A non-blank 2xx-path body that decodes to a dict carrying an `error` key:
the one shape on which a success payload collides with the error-record
discriminator. -/
def successBodyHasError (o : HttpOutcome) : Bool :=
  match o with
  | .response status text (some v) =>
      if 400 ≤ status ∧ status < 600 then false
      else if pyStrip text = "" then false
      else v.hasKey "error"
  | _ => false

/-- The name rule passes (negation of the guard at src line 224). -/
def nameOk (i : BuilderInput) : Prop :=
  ¬(i.name = "" ∨ (pyStrip i.name).length < 3)

/-- The price-type rule passes (src line 235). -/
def priceTypeOk (i : BuilderInput) : Prop :=
  i.price_type = "fixed" ∨ i.price_type = "custom" ∨ i.price_type = "free"

/-- The supplied cap amount, when it parses at all, is non-negative. -/
def capOk (v : Option String) : Prop :=
  ∀ c, _as_int_cents v = some c → 0 ≤ c

/-- The steps after the name and plan checks succeed exactly when the
price-type, base-price, metered, and organization blocks all succeed. -/
theorem buildWithInterval_ok_iff (i : BuilderInput) (r : Option String) (p : ProductPayload) :
    buildWithInterval i r = .ok p ↔
      (priceTypeOk i ∧ ∃ b, basePrice i = .ok b ∧ ∃ m, meteredPrice i r = .ok m ∧
        ∃ o, orgField i.org_id = .ok o ∧ p = mkPayload i r b m o) := by
  unfold buildWithInterval priceTypeOk
  by_cases hpt : (i.price_type = "fixed" ∨ i.price_type = "custom" ∨ i.price_type = "free")
  · rw [if_pos hpt]
    cases hb : basePrice i with
    | error e => simp [hpt]
    | ok b =>
      cases hm : meteredPrice i r with
      | error e => simp [hpt]
      | ok m =>
        cases ho : orgField i.org_id with
        | error e => simp [hpt]
        | ok o =>
            simp [hpt]
            exact eq_comm
  · rw [if_neg hpt]
    simp [hpt]

/-- The builder succeeds exactly when every validation block succeeds, and
then returns the assembled payload. -/
theorem build_ok_iff (i : BuilderInput) (p : ProductPayload) :
    build_product_payload_simple i = .ok p ↔
      (nameOk i ∧ ∃ r, planInterval i.plan = some r ∧ priceTypeOk i ∧
        ∃ b, basePrice i = .ok b ∧ ∃ m, meteredPrice i r = .ok m ∧
          ∃ o, orgField i.org_id = .ok o ∧ p = mkPayload i r b m o) := by
  unfold build_product_payload_simple nameOk
  by_cases hn : (i.name = "" ∨ (pyStrip i.name).length < 3)
  · simp [hn]
  · rw [if_neg hn]
    cases hpl : planInterval i.plan with
    | none => simp
    | some r => simp [buildWithInterval_ok_iff, hn]

/-- A violated name rule yields the name error, whatever the other fields. -/
theorem build_error_name (i : BuilderInput)
    (h : i.name = "" ∨ (pyStrip i.name).length < 3) :
    build_product_payload_simple i = .error "Name minimal 3 karakter." := by
  unfold build_product_payload_simple
  rw [if_pos h]

/-- With a valid name, an invalid plan yields the plan error. -/
theorem build_error_plan (i : BuilderInput) (hn : nameOk i)
    (h : planInterval i.plan = none) :
    build_product_payload_simple i =
      .error "Plan tidak valid (one_time | month | year)." := by
  unfold build_product_payload_simple
  rw [if_neg hn, h]

/-- With a valid name and plan, the builder reduces to the remaining steps. -/
theorem build_eq_withInterval (i : BuilderInput) (hn : nameOk i)
    (r : Option String) (hr : planInterval i.plan = some r) :
    build_product_payload_simple i = buildWithInterval i r := by
  unfold build_product_payload_simple
  rw [if_neg hn, hr]

/-- With a valid name and plan, an invalid price type yields the price-type
error. -/
theorem build_error_priceType (i : BuilderInput) (hn : nameOk i)
    (r : Option String) (hr : planInterval i.plan = some r)
    (h : ¬ priceTypeOk i) :
    build_product_payload_simple i =
      .error "Tipe harga tidak valid (fixed | custom | free)." := by
  rw [build_eq_withInterval i hn r hr]
  unfold priceTypeOk at h
  unfold buildWithInterval
  rw [if_neg h]

/-- With valid name, plan, and price type, a failing base-price block
propagates its error. -/
theorem build_error_base (i : BuilderInput) (hn : nameOk i)
    (r : Option String) (hr : planInterval i.plan = some r)
    (hpt : priceTypeOk i) (e : String) (hb : basePrice i = .error e) :
    build_product_payload_simple i = .error e := by
  rw [build_eq_withInterval i hn r hr]
  unfold priceTypeOk at hpt
  unfold buildWithInterval
  rw [if_pos hpt, hb]

/-- After a successful base price, a failing metered block propagates its
error (whatever the organization id holds). -/
theorem build_error_metered (i : BuilderInput) (hn : nameOk i)
    (r : Option String) (hr : planInterval i.plan = some r)
    (hpt : priceTypeOk i) (b : Price) (hb : basePrice i = .ok b)
    (e : String) (hm : meteredPrice i r = .error e) :
    build_product_payload_simple i = .error e := by
  rw [build_eq_withInterval i hn r hr]
  unfold priceTypeOk at hpt
  unfold buildWithInterval
  rw [if_pos hpt, hb, hm]

/-- After successful base and metered blocks, a failing organization-id block
propagates its error. -/
theorem build_error_org (i : BuilderInput) (hn : nameOk i)
    (r : Option String) (hr : planInterval i.plan = some r)
    (hpt : priceTypeOk i) (b : Price) (hb : basePrice i = .ok b)
    (m : Option Price) (hm : meteredPrice i r = .ok m)
    (e : String) (ho : orgField i.org_id = .error e) :
    build_product_payload_simple i = .error e := by
  rw [build_eq_withInterval i hn r hr]
  unfold priceTypeOk at hpt
  unfold buildWithInterval
  rw [if_pos hpt, hb, hm, ho]

/-- With the metered toggle off, the metered block contributes nothing. -/
theorem meteredPrice_disabled (i : BuilderInput) (r : Option String)
    (h : i.enable_metered = false) : meteredPrice i r = .ok none := by
  unfold meteredPrice
  rw [h]
  rfl

/-- With the metered toggle on and no recurring interval, the metered block
fails with the one-time error. -/
theorem meteredPrice_one_time (i : BuilderInput) (h : i.enable_metered = true) :
    meteredPrice i none = .error "Produk one-time TIDAK boleh punya metered price." := by
  unfold meteredPrice
  rw [h]
  rfl

/-- Full characterization of the successful metered block on a recurring
interval. -/
theorem meteredPrice_recurring_ok_iff (i : BuilderInput) (v : String) (m : Option Price)
    (he : i.enable_metered = true) :
    meteredPrice i (some v) = .ok m ↔
      (i.meter_id ≠ "" ∧ _is_uuid i.meter_id = true ∧
        ∃ u, i.unit_amount = some u ∧ pyStrip u ≠ "" ∧
          capOk i.cap_amount ∧
          m = some (.metered (pyStrip i.meter_id) (pyStrip u) (_as_int_cents i.cap_amount))) := by
  unfold meteredPrice capOk
  by_cases hid1 : i.meter_id = ""
  · simp [he, hid1]
  · by_cases hid2 : _is_uuid i.meter_id
    · cases hu : i.unit_amount with
      | none => simp [he, hid1, hid2]
      | some u =>
          by_cases hub : pyStrip u = ""
          · simp [he, hid1, hid2, hub]
          · cases hc : _as_int_cents i.cap_amount with
            | none =>
                simp [he, hid1, hid2, hub]
                exact eq_comm
            | some c =>
                by_cases hneg : c < 0
                · simp [he, hid1, hid2, hub, hneg,
                        show ¬(0:Int) ≤ c from by omega]
                · simp [he, hid1, hid2, hub, hneg,
                        show (0:Int) ≤ c from by omega]
                  exact eq_comm
    · simp [he, hid1, hid2]

/-- A blank organization id is skipped and attaches nothing. -/
theorem orgField_blank (org_id : String) (h : pyStrip org_id = "") :
    orgField org_id = .ok none := by
  unfold orgField
  rw [if_neg (by simp [h])]

/-- A present, non-blank, syntactically valid organization id is attached
stripped. -/
theorem orgField_valid (org_id : String) (h : pyStrip org_id ≠ "")
    (hu : _is_uuid org_id = true) :
    orgField org_id = .ok (some (pyStrip org_id)) := by
  unfold orgField
  have hne : org_id ≠ "" := by
    intro he
    exact h (by rw [he]; rfl)
  rw [if_pos ⟨hne, h⟩, if_neg (by simp [hu])]

/-- A present, non-blank organization id that is not a UUID fails with the
invalid-organization-id error. -/
theorem orgField_invalid (org_id : String) (h : pyStrip org_id ≠ "")
    (hu : _is_uuid org_id = false) :
    orgField org_id = .error "organization_id harus UUID valid." := by
  unfold orgField
  have hne : org_id ≠ "" := by
    intro he
    exact h (by rw [he]; rfl)
  rw [if_pos ⟨hne, h⟩, if_pos (by simp [hu])]

/-- The base-price block on price type `fixed`. -/
theorem basePrice_fixed_ok_iff (i : BuilderInput) (h : i.price_type = "fixed") (b : Price) :
    basePrice i = .ok b ↔
      ∃ n, _as_int_cents i.fixed_amount = some n ∧ ¬ n < 50 ∧ b = .fixed n := by
  unfold basePrice
  cases hc : _as_int_cents i.fixed_amount with
  | none => simp [h]
  | some c =>
      by_cases h2 : c < 50
      · simp [h, h2]
      · simp [h, h2, show (50:Int) ≤ c from by omega]
        exact eq_comm

/-- The base-price block on price type `custom`. -/
theorem basePrice_custom_ok_iff (i : BuilderInput) (h : i.price_type = "custom") (b : Price) :
    basePrice i = .ok b ↔
      (¬(lowOpt (_as_int_cents i.custom_min) || lowOpt (_as_int_cents i.custom_max)
          || lowOpt (_as_int_cents i.custom_preset)) = true ∧
       ¬ minOverMax (_as_int_cents i.custom_min) (_as_int_cents i.custom_max) = true ∧
       b = .custom (_as_int_cents i.custom_min) (_as_int_cents i.custom_max)
             (_as_int_cents i.custom_preset)) := by
  have hne : i.price_type ≠ "fixed" := by rw [h]; decide
  unfold basePrice
  by_cases h3 : (lowOpt (_as_int_cents i.custom_min) || lowOpt (_as_int_cents i.custom_max)
      || lowOpt (_as_int_cents i.custom_preset)) = true
  · simp [hne, h, h3]
  · by_cases h4 : minOverMax (_as_int_cents i.custom_min) (_as_int_cents i.custom_max) = true
    · simp [hne, h, h3, h4]
    · simp [hne, h, h3, h4]
      exact eq_comm

/-- The base-price block never produces a metered price specification. -/
theorem basePrice_not_metered (i : BuilderInput) (b : Price)
    (h : basePrice i = .ok b) : b.isMetered = false := by
  by_cases h1 : i.price_type = "fixed"
  · obtain ⟨n, -, -, rfl⟩ := (basePrice_fixed_ok_iff i h1 b).mp h
    rfl
  · by_cases h2 : i.price_type = "custom"
    · obtain ⟨-, -, rfl⟩ := (basePrice_custom_ok_iff i h2 b).mp h
      rfl
    · unfold basePrice at h
      rw [if_neg h1, if_neg h2] at h
      cases h
      rfl

/-- A concrete, fully valid one-time fixed-price input with the metered
toggle on. -/
def inputOneTimeMetered : BuilderInput :=
  { name := "Pro Plan", description := "", plan := "one_time", price_type := "fixed",
    fixed_amount := some "999", custom_min := none, custom_max := none, custom_preset := none,
    org_id := "", enable_metered := true, meter_id := "123e4567-e89b-12d3-a456-426614174000",
    unit_amount := some "0.05", cap_amount := none }

/-- Claim C1: with `plan = one_time` and the metered toggle enabled the
builder always fails, whatever the metered fields hold; and no payload the
builder ever returns for a one-time plan contains a metered price
specification in its price sequence. -/
theorem C1_one_time_never_metered (i : BuilderInput) (hplan : i.plan = "one_time") :
    (i.enable_metered = true → ∃ e, build_product_payload_simple i = .error e) ∧
    (∀ p, build_product_payload_simple i = .ok p →
      ∀ pr ∈ p.prices, pr.isMetered = false) := by
  have hpi : planInterval i.plan = some none := by rw [hplan]; rfl
  constructor
  · intro hm
    cases hb : build_product_payload_simple i with
    | error e => exact ⟨e, rfl⟩
    | ok p =>
        exfalso
        rw [build_ok_iff] at hb
        obtain ⟨-, r, hr, -, b, -, m, hmet, -⟩ := hb
        rw [hpi] at hr
        cases hr
        rw [meteredPrice_one_time i hm] at hmet
        cases hmet
  · intro p hp pr hpr
    rw [build_ok_iff] at hp
    obtain ⟨-, r, hr, -, b, hbase, m, hmet, o, ho, rfl⟩ := hp
    rw [hpi] at hr
    cases hr
    by_cases he : i.enable_metered
    · rw [meteredPrice_one_time i he] at hmet
      cases hmet
    · rw [meteredPrice_disabled i none (by simpa using he)] at hmet
      cases hmet
      simp [mkPayload] at hpr
      subst hpr
      exact basePrice_not_metered i pr hbase

/-- Witness for C1: at a concrete one-time input with metered pricing enabled
and valid metered fields, the builder fails. -/
theorem C1_witness : ∃ e, build_product_payload_simple inputOneTimeMetered = .error e :=
  (C1_one_time_never_metered inputOneTimeMetered rfl).1 rfl

/-- Claim C8: a missing or too-short (trimmed) name always fails with the
name-length error regardless of all other fields; and the rules are checked
in the fixed order name, plan, price-type block, metered block, organization
id, the first violated rule producing the single error of the all-or-nothing
result. -/
theorem C8_validation_order (i : BuilderInput) :
    ((i.name = "" ∨ (pyStrip i.name).length < 3) →
      build_product_payload_simple i = .error "Name minimal 3 karakter.") ∧
    (nameOk i → planInterval i.plan = none →
      build_product_payload_simple i = .error "Plan tidak valid (one_time | month | year).") ∧
    (nameOk i → ∀ r, planInterval i.plan = some r → ¬ priceTypeOk i →
      build_product_payload_simple i = .error "Tipe harga tidak valid (fixed | custom | free).") ∧
    (nameOk i → ∀ r, planInterval i.plan = some r → priceTypeOk i →
      ∀ e, basePrice i = .error e → build_product_payload_simple i = .error e) ∧
    (nameOk i → ∀ r, planInterval i.plan = some r → priceTypeOk i →
      ∀ b, basePrice i = .ok b → ∀ e, meteredPrice i r = .error e →
        build_product_payload_simple i = .error e) ∧
    (nameOk i → ∀ r, planInterval i.plan = some r → priceTypeOk i →
      ∀ b, basePrice i = .ok b → ∀ m, meteredPrice i r = .ok m →
        ∀ e, orgField i.org_id = .error e → build_product_payload_simple i = .error e) := by
  refine ⟨build_error_name i, build_error_plan i,
    fun hn r hr h => build_error_priceType i hn r hr h,
    fun hn r hr hpt e hb => build_error_base i hn r hr hpt e hb,
    fun hn r hr hpt b hb e hm => build_error_metered i hn r hr hpt b hb e hm,
    fun hn r hr hpt b hb m hm e ho => build_error_org i hn r hr hpt b hb m hm e ho⟩

/-- Witness for C8: a two-character name fails with the name error even
though every other field is nonsense. -/
theorem C8_witness :
    build_product_payload_simple
      { name := "ab", description := "", plan := "bogus", price_type := "bogus",
        fixed_amount := none, custom_min := none, custom_max := none, custom_preset := none,
        org_id := "zzz", enable_metered := true, meter_id := "zzz",
        unit_amount := none, cap_amount := some "-3" } =
      .error "Name minimal 3 karakter." :=
  (C8_validation_order _).1 (Or.inr (by decide))

/-- Claim C2: for price type `fixed`, a missing, non-numeric, or below-50
amount always makes the builder fail; an amount parsing to an integer of at
least 50 makes it succeed once the remaining rules pass, and the base price
specification carries exactly that integer; parsing converts an integer,
decimal string, or numeric string to an integer truncated toward zero, not
rounded. -/
theorem C2_fixed_amount (i : BuilderInput) (hpt : i.price_type = "fixed") :
    ((_as_int_cents i.fixed_amount = none ∨
        (∃ n, _as_int_cents i.fixed_amount = some n ∧ n < 50)) →
      ∀ p, build_product_payload_simple i ≠ .ok p) ∧
    (∀ n, _as_int_cents i.fixed_amount = some n → 50 ≤ n →
      nameOk i → ∀ r, planInterval i.plan = some r →
        ∀ m, meteredPrice i r = .ok m → ∀ o, orgField i.org_id = .ok o →
          ∃ p, build_product_payload_simple i = .ok p ∧
            p.prices.head? = some (.fixed n)) ∧
    (_as_int_cents (some "999") = some 999 ∧ _as_int_cents (some "50.9") = some 50 ∧
     _as_int_cents (some "-7.9") = some (-7) ∧ _as_int_cents none = none ∧
     _as_int_cents (some "abc") = none) := by
  refine ⟨?_, ?_, rfl, rfl, rfl, rfl, rfl⟩
  · intro hbad p hp
    rw [build_ok_iff] at hp
    obtain ⟨-, r, -, -, b, hb, -⟩ := hp
    rw [basePrice_fixed_ok_iff i hpt] at hb
    obtain ⟨n, hn, hge, -⟩ := hb
    cases hbad with
    | inl h => rw [h] at hn; cases hn
    | inr h =>
        obtain ⟨n', hn', hlt⟩ := h
        rw [hn'] at hn
        cases hn
        exact hge hlt
  · intro n hn h50 hname r hr m hm o ho
    refine ⟨mkPayload i r (.fixed n) m o, ?_, ?_⟩
    · rw [build_ok_iff]
      exact ⟨hname, r, hr, Or.inl hpt, .fixed n,
        (basePrice_fixed_ok_iff i hpt _).mpr ⟨n, hn, by omega, rfl⟩,
        m, hm, o, ho, rfl⟩
    · rfl

/-- Witness for C2 at a concrete input: amount `"999"` parses to 999 and the
builder returns a payload whose base price carries exactly 999. -/
theorem C2_witness :
    ∃ p, build_product_payload_simple
      { name := "Pro Plan", description := "", plan := "month", price_type := "fixed",
        fixed_amount := some "999", custom_min := none, custom_max := none,
        custom_preset := none, org_id := "", enable_metered := false, meter_id := "",
        unit_amount := none, cap_amount := none } = .ok p ∧
      p.prices.head? = some (.fixed 999) :=
  (C2_fixed_amount _ rfl).2.1 999 rfl (by decide) (by unfold nameOk; decide)
    (some "month") rfl none rfl none rfl

/-- Claim C5: a non-blank organization id that is not a UUID always makes the
builder fail, and with the earlier rules passing it fails precisely with the
invalid-organization-id error; a blank organization id succeeds (given the
rest is valid) and the payload omits the `organization_id` key entirely; a
syntactically valid one is carried in the payload. -/
theorem C5_org_id (i : BuilderInput) :
    (pyStrip i.org_id ≠ "" → _is_uuid i.org_id = false →
      (∀ p, build_product_payload_simple i ≠ .ok p) ∧
      (nameOk i → ∀ r, planInterval i.plan = some r → priceTypeOk i →
        ∀ b, basePrice i = .ok b → ∀ m, meteredPrice i r = .ok m →
          build_product_payload_simple i = .error "organization_id harus UUID valid.")) ∧
    (pyStrip i.org_id = "" →
      nameOk i → ∀ r, planInterval i.plan = some r → priceTypeOk i →
        ∀ b, basePrice i = .ok b → ∀ m, meteredPrice i r = .ok m →
          ∃ p, build_product_payload_simple i = .ok p ∧
            p.organization_id = none ∧ p.toJson.hasKey "organization_id" = false) ∧
    (pyStrip i.org_id ≠ "" → _is_uuid i.org_id = true →
      nameOk i → ∀ r, planInterval i.plan = some r → priceTypeOk i →
        ∀ b, basePrice i = .ok b → ∀ m, meteredPrice i r = .ok m →
          ∃ p, build_product_payload_simple i = .ok p ∧
            p.organization_id = some (pyStrip i.org_id) ∧
            p.toJson.hasKey "organization_id" = true) := by
  refine ⟨fun hnb hu => ⟨?_, ?_⟩, fun hb hname r hr hpt b hbase m hm => ?_,
    fun hnb hu hname r hr hpt b hbase m hm => ?_⟩
  · intro p hp
    rw [build_ok_iff] at hp
    obtain ⟨-, r, -, -, b, -, m, -, o, ho, -⟩ := hp
    rw [orgField_invalid i.org_id hnb hu] at ho
    cases ho
  · intro hname r hr hpt b hbase m hm
    exact build_error_org i hname r hr hpt b hbase m hm _
      (orgField_invalid i.org_id hnb hu)
  · refine ⟨mkPayload i r b m none, ?_, rfl, ?_⟩
    · rw [build_ok_iff]
      exact ⟨hname, r, hr, hpt, b, hbase, m, hm, none, orgField_blank i.org_id hb, rfl⟩
    · simp [mkPayload, ProductPayload.toJson, JValue.hasKey]
  · refine ⟨mkPayload i r b m (some (pyStrip i.org_id)), ?_, rfl, ?_⟩
    · rw [build_ok_iff]
      exact ⟨hname, r, hr, hpt, b, hbase, m, hm, some (pyStrip i.org_id),
        orgField_valid i.org_id hnb hu, rfl⟩
    · simp [mkPayload, ProductPayload.toJson, JValue.hasKey]

/-- Witness for C5: a concrete input with a valid organization id succeeds
and carries the id; the hypotheses of the valid-id branch are discharged at
that input. -/
theorem C5_witness :
    ∃ p, build_product_payload_simple
      { name := "Pro Plan", description := "", plan := "year", price_type := "free",
        fixed_amount := none, custom_min := none, custom_max := none, custom_preset := none,
        org_id := "123e4567-e89b-12d3-a456-426614174000", enable_metered := false,
        meter_id := "", unit_amount := none, cap_amount := none } = .ok p ∧
      p.organization_id = some (pyStrip "123e4567-e89b-12d3-a456-426614174000") ∧
      p.toJson.hasKey "organization_id" = true :=
  (C5_org_id _).2.2 (by decide) (by decide) (by unfold nameOk; decide) (some "year") rfl
    (Or.inr (Or.inr rfl)) .free rfl none rfl

/-- Shared success construction for the metered block: with a recurring plan,
valid metered fields, and every other rule passing, the builder returns the
payload whose second price is the metered specification. -/
theorem build_with_metered_ok (i : BuilderInput)
    (hplan : i.plan = "month" ∨ i.plan = "year")
    (he : i.enable_metered = true)
    (hid : i.meter_id ≠ "") (huu : _is_uuid i.meter_id = true)
    (u : String) (hu : i.unit_amount = some u) (hub : pyStrip u ≠ "")
    (hcap : capOk i.cap_amount)
    (hname : nameOk i) (hpt : priceTypeOk i) (b : Price) (hb : basePrice i = .ok b)
    (o : Option String) (ho : orgField i.org_id = .ok o) :
    build_product_payload_simple i =
      .ok (mkPayload i (some i.plan) b
        (some (.metered (pyStrip i.meter_id) (pyStrip u) (_as_int_cents i.cap_amount))) o) := by
  have hr : planInterval i.plan = some (some i.plan) := by
    rcases hplan with h | h
    · rw [h]; rfl
    · rw [h]; rfl
  rw [build_ok_iff]
  refine ⟨hname, some i.plan, hr, hpt, b, hb, _, ?_, o, ho, rfl⟩
  exact (meteredPrice_recurring_ok_iff i i.plan _ he).mpr ⟨hid, huu, u, hu, hub, hcap, rfl⟩

/-- Claim C6: on a recurring plan with metered pricing enabled, a valid UUID
meter id and a present, non-blank unit amount (cap and organization id valid,
remaining rules passing), the builder succeeds; the price sequence has length
two with the base price first, and the second entry carries the metered type,
the (stripped) meter id, and the unit amount kept as a decimal string rather
than coerced to an integer. -/
theorem C6_metered_recurring (i : BuilderInput)
    (hplan : i.plan = "month" ∨ i.plan = "year")
    (he : i.enable_metered = true)
    (hid : i.meter_id ≠ "") (huu : _is_uuid i.meter_id = true)
    (u : String) (hu : i.unit_amount = some u) (hub : pyStrip u ≠ "")
    (hcap : capOk i.cap_amount)
    (hname : nameOk i) (hpt : priceTypeOk i) (b : Price) (hb : basePrice i = .ok b)
    (o : Option String) (ho : orgField i.org_id = .ok o) :
    ∃ p, build_product_payload_simple i = .ok p ∧
      p.prices.length = 2 ∧
      p.prices = [b, .metered (pyStrip i.meter_id) (pyStrip u)
        (_as_int_cents i.cap_amount)] :=
  ⟨mkPayload i (some i.plan) b
      (some (.metered (pyStrip i.meter_id) (pyStrip u) (_as_int_cents i.cap_amount))) o,
    build_with_metered_ok i hplan he hid huu u hu hub hcap hname hpt b hb o ho,
    rfl, rfl⟩

/-- Witness for C6: the concrete input of the spec (`plan = month`, a valid
UUID meter id, `unit_amount = "0.05"`) succeeds with a two-element price
sequence whose second entry is the metered specification. -/
theorem C6_witness :
    ∃ p, build_product_payload_simple
      { name := "Pro Plan", description := "", plan := "month", price_type := "fixed",
        fixed_amount := some "999", custom_min := none, custom_max := none,
        custom_preset := none, org_id := "", enable_metered := true,
        meter_id := "123e4567-e89b-12d3-a456-426614174000",
        unit_amount := some "0.05", cap_amount := none } = .ok p ∧
      p.prices.length = 2 ∧
      p.prices = [.fixed 999,
        .metered (pyStrip "123e4567-e89b-12d3-a456-426614174000") (pyStrip "0.05")
          (_as_int_cents none)] :=
  C6_metered_recurring _ (Or.inl rfl) rfl (by decide) (by decide) "0.05" rfl (by decide)
    (by intro c hc; simp [_as_int_cents] at hc) (by unfold nameOk; decide)
    (Or.inl rfl) (.fixed 999) rfl none rfl

/-- With price type `custom`, bounds clearing the 50-cent rule but with
minimum above maximum produce exactly the min-exceeds-max error. -/
theorem basePrice_custom_minmax_error (i : BuilderInput) (h : i.price_type = "custom")
    (hlow : ¬(lowOpt (_as_int_cents i.custom_min) || lowOpt (_as_int_cents i.custom_max)
        || lowOpt (_as_int_cents i.custom_preset)) = true)
    (hmm : minOverMax (_as_int_cents i.custom_min) (_as_int_cents i.custom_max) = true) :
    basePrice i = .error "Custom price: minimum tidak boleh > maximum." := by
  have hne : i.price_type ≠ "fixed" := by rw [h]; decide
  unfold basePrice
  simp [hne, h, hlow, hmm]

/-- A bound clearing the 50-cent rule is not flagged as low. -/
theorem lowOpt_false (n : Int) (h : 50 ≤ n) : lowOpt (some n) = false := by
  simp [lowOpt]
  omega

/-- Claim C7: for price type `custom`, any supplied minimum, maximum, or
preset parsing below 50 always makes the builder fail; a supplied minimum
exceeding a supplied maximum always fails, and with both bounds clearing 50
(and the earlier rules passing) the error is exactly the min-exceeds-max one;
with minimum at most maximum the builder succeeds and both bounds appear
unmodified in the output price specification, while an unsupplied bound is
omitted from the price dict with no default substituted. -/
theorem C7_custom_bounds (i : BuilderInput) (hct : i.price_type = "custom") :
    ((∃ n, (_as_int_cents i.custom_min = some n ∨ _as_int_cents i.custom_max = some n ∨
        _as_int_cents i.custom_preset = some n) ∧ n < 50) →
      ∀ p, build_product_payload_simple i ≠ .ok p) ∧
    (∀ a b, _as_int_cents i.custom_min = some a → _as_int_cents i.custom_max = some b →
      b < a →
      (∀ p, build_product_payload_simple i ≠ .ok p) ∧
      (50 ≤ a → 50 ≤ b → ¬ lowOpt (_as_int_cents i.custom_preset) = true →
        nameOk i → ∀ r, planInterval i.plan = some r →
          build_product_payload_simple i =
            .error "Custom price: minimum tidak boleh > maximum.")) ∧
    (∀ a b, _as_int_cents i.custom_min = some a → _as_int_cents i.custom_max = some b →
      50 ≤ a → a ≤ b → ¬ lowOpt (_as_int_cents i.custom_preset) = true →
      nameOk i → ∀ r, planInterval i.plan = some r →
        ∀ m, meteredPrice i r = .ok m → ∀ o, orgField i.org_id = .ok o →
          ∃ p, build_product_payload_simple i = .ok p ∧
            p.prices.head? =
              some (.custom (some a) (some b) (_as_int_cents i.custom_preset))) ∧
    (∀ mx pc, (Price.custom none mx pc).toJson.hasKey "minimum_amount" = false) ∧
    (∀ mn pc, (Price.custom mn none pc).toJson.hasKey "maximum_amount" = false) ∧
    (∀ mn mx, (Price.custom mn mx none).toJson.hasKey "preset_amount" = false) := by
  refine ⟨?_, ?_, ?_, ?_, ?_, ?_⟩
  · rintro ⟨n, hor, hlt⟩ p hp
    rw [build_ok_iff] at hp
    obtain ⟨-, r, -, -, b, hb, -⟩ := hp
    rw [basePrice_custom_ok_iff i hct] at hb
    obtain ⟨h3, -, -⟩ := hb
    rcases hor with h | h | h <;>
      (rw [h] at h3; simp [lowOpt, hlt] at h3)
  · intro a b hmin hmax hba
    constructor
    · intro p hp
      rw [build_ok_iff] at hp
      obtain ⟨-, r, -, -, b', hb, -⟩ := hp
      rw [basePrice_custom_ok_iff i hct] at hb
      obtain ⟨-, h4, -⟩ := hb
      rw [hmin, hmax] at h4
      simp [minOverMax, hba] at h4
    · intro ha hb hpre hname r hr
      refine build_error_base i hname r hr (Or.inr (Or.inl hct)) _
        (basePrice_custom_minmax_error i hct ?_ ?_)
      · rw [hmin, hmax, lowOpt_false a ha, lowOpt_false b hb]
        simpa using hpre
      · rw [hmin, hmax]
        simp [minOverMax]
        omega
  · intro a b hmin hmax ha hab hpre hname r hr m hm o ho
    have hlow : ¬(lowOpt (_as_int_cents i.custom_min) || lowOpt (_as_int_cents i.custom_max)
        || lowOpt (_as_int_cents i.custom_preset)) = true := by
      rw [hmin, hmax, lowOpt_false a ha, lowOpt_false b (by omega)]
      simpa using hpre
    have hmm : ¬ minOverMax (_as_int_cents i.custom_min) (_as_int_cents i.custom_max) = true := by
      rw [hmin, hmax]
      simp [minOverMax]
      omega
    refine ⟨mkPayload i r (.custom (some a) (some b) (_as_int_cents i.custom_preset)) m o,
      ?_, rfl⟩
    rw [build_ok_iff]
    refine ⟨hname, r, hr, Or.inr (Or.inl hct), _,
      (basePrice_custom_ok_iff i hct _).mpr ⟨hlow, hmm, ?_⟩, m, hm, o, ho, rfl⟩
    rw [hmin, hmax]
  · intro mx pc
    cases mx <;> cases pc <;> simp [Price.toJson, optIntField, JValue.hasKey]
  · intro mn pc
    cases mn <;> cases pc <;> simp [Price.toJson, optIntField, JValue.hasKey]
  · intro mn mx
    cases mn <;> cases mx <;> simp [Price.toJson, optIntField, JValue.hasKey]

/-- Witness for C7: the spec's concrete input `minimum = 100, maximum = 500`
succeeds with both bounds unmodified in the price specification. -/
theorem C7_witness :
    ∃ p, build_product_payload_simple
      { name := "Pro Plan", description := "", plan := "one_time", price_type := "custom",
        fixed_amount := none, custom_min := some "100", custom_max := some "500",
        custom_preset := none, org_id := "", enable_metered := false, meter_id := "",
        unit_amount := none, cap_amount := none } = .ok p ∧
      p.prices.head? = some (.custom (some 100) (some 500) (_as_int_cents none)) :=
  (C7_custom_bounds _ rfl).2.2.1 100 500 rfl rfl (by decide) (by decide) (by decide)
    (by unfold nameOk; decide) none rfl none rfl none rfl

/-- Counterexample to claim C4: with a recurring plan, a valid meter id and
unit amount, and the supplied non-parsable cap amount `"abc"`, the builder
does not fail — it succeeds, silently dropping the cap from the metered
specification. -/
theorem C4_counterexample :
    build_product_payload_simple
      { name := "Pro Plan", description := "", plan := "month", price_type := "free",
        fixed_amount := none, custom_min := none, custom_max := none, custom_preset := none,
        org_id := "", enable_metered := true,
        meter_id := "123e4567-e89b-12d3-a456-426614174000",
        unit_amount := some "0.05", cap_amount := some "abc" } =
      .ok { name := "Pro Plan", description := none, recurring_interval := some "month",
            prices := [.free,
              .metered "123e4567-e89b-12d3-a456-426614174000" "0.05" none],
            organization_id := none } := by
  rfl

/-- Claim C4 (amended): when metered pricing is enabled on a recurring plan
with a valid meter id and unit amount, a supplied cap amount parsing to a
negative integer makes the builder fail; but a supplied cap amount that does
not parse as a number is NOT a validation failure — it is silently treated as
absent and the metered specification carries no cap; a non-negative parsed
cap is attached as is. -/
theorem C4_cap_amount (i : BuilderInput) (he : i.enable_metered = true) :
    (∀ c, _as_int_cents i.cap_amount = some c → c < 0 →
      ∀ p, build_product_payload_simple i ≠ .ok p) ∧
    (_as_int_cents i.cap_amount = none →
      i.plan = "month" ∨ i.plan = "year" →
      i.meter_id ≠ "" → _is_uuid i.meter_id = true →
      ∀ u, i.unit_amount = some u → pyStrip u ≠ "" →
        nameOk i → priceTypeOk i → ∀ b, basePrice i = .ok b →
          ∀ o, orgField i.org_id = .ok o →
            ∃ p, build_product_payload_simple i = .ok p ∧
              p.prices = [b, .metered (pyStrip i.meter_id) (pyStrip u) none]) ∧
    (∀ c, _as_int_cents i.cap_amount = some c → 0 ≤ c →
      i.plan = "month" ∨ i.plan = "year" →
      i.meter_id ≠ "" → _is_uuid i.meter_id = true →
      ∀ u, i.unit_amount = some u → pyStrip u ≠ "" →
        nameOk i → priceTypeOk i → ∀ b, basePrice i = .ok b →
          ∀ o, orgField i.org_id = .ok o →
            ∃ p, build_product_payload_simple i = .ok p ∧
              p.prices = [b, .metered (pyStrip i.meter_id) (pyStrip u) (some c)]) := by
  refine ⟨?_, ?_, ?_⟩
  · intro c hc hneg p hp
    rw [build_ok_iff] at hp
    obtain ⟨-, r, hr, -, b, -, m, hmet, -⟩ := hp
    cases r with
    | none =>
        rw [meteredPrice_one_time i he] at hmet
        cases hmet
    | some v =>
        rw [meteredPrice_recurring_ok_iff i v m he] at hmet
        obtain ⟨-, -, u, -, -, hcap, -⟩ := hmet
        have := hcap c hc
        omega
  · intro hnone hplan hid huu u hu hub hname hpt b hb o ho
    have hcap : capOk i.cap_amount := by
      intro c hc
      rw [hnone] at hc
      cases hc
    refine ⟨_, build_with_metered_ok i hplan he hid huu u hu hub hcap hname hpt b hb o ho, ?_⟩
    simp [mkPayload, hnone]
  · intro c hc h0 hplan hid huu u hu hub hname hpt b hb o ho
    have hcap : capOk i.cap_amount := by
      intro x hx
      rw [hc] at hx
      cases hx
      exact h0
    refine ⟨_, build_with_metered_ok i hplan he hid huu u hu hub hcap hname hpt b hb o ho, ?_⟩
    simp [mkPayload, hc]

/-- A concrete recurring metered input with the negative cap amount `"-5"`. -/
def inputCapNeg : BuilderInput :=
  { name := "Pro Plan", description := "", plan := "month", price_type := "free",
    fixed_amount := none, custom_min := none, custom_max := none, custom_preset := none,
    org_id := "", enable_metered := true,
    meter_id := "123e4567-e89b-12d3-a456-426614174000",
    unit_amount := some "0.05", cap_amount := some "-5" }

/-- A concrete recurring metered input with the non-parsable cap `"abc"`. -/
def inputCapAbc : BuilderInput :=
  { name := "Pro Plan", description := "", plan := "year", price_type := "free",
    fixed_amount := none, custom_min := none, custom_max := none, custom_preset := none,
    org_id := "", enable_metered := true,
    meter_id := "123e4567-e89b-12d3-a456-426614174000",
    unit_amount := some "0.05", cap_amount := some "abc" }

/-- Witness for C4 (amended): a concrete recurring metered input with the
negative cap amount `"-5"` fails, and the same input with cap `"abc"`
(non-parsable) succeeds without a cap. -/
theorem C4_witness :
    (∀ p, build_product_payload_simple inputCapNeg ≠ .ok p) ∧
    (∃ p, build_product_payload_simple inputCapAbc = .ok p ∧
      p.prices = [.free,
        .metered (pyStrip "123e4567-e89b-12d3-a456-426614174000") (pyStrip "0.05") none]) :=
  ⟨(C4_cap_amount inputCapNeg rfl).1 (-5) rfl (by decide),
   (C4_cap_amount inputCapAbc rfl).2.1 rfl (Or.inr rfl) (by decide) (by decide) "0.05" rfl
     (by decide) (by unfold nameOk; decide) (Or.inr (Or.inr rfl)) .free rfl none rfl⟩

/-- A concrete valid input whose description is a single space. -/
def inputBlankDesc : BuilderInput :=
  { name := "Pro Plan", description := " ", plan := "month", price_type := "free",
    fixed_amount := none, custom_min := none, custom_max := none, custom_preset := none,
    org_id := "", enable_metered := false, meter_id := "", unit_amount := none,
    cap_amount := none }

/-- The payload the builder returns for `inputBlankDesc`. -/
def payloadBlankDesc : ProductPayload :=
  { name := "Pro Plan", description := some " ", recurring_interval := some "month",
    prices := [.free], organization_id := none }

/-- Counterexample to claim C10: a whitespace-only (blank but non-empty)
description is kept verbatim in the payload and serialized as the string
`" "`, not mapped to null. -/
theorem C10_counterexample :
    build_product_payload_simple inputBlankDesc = .ok payloadBlankDesc ∧
    payloadBlankDesc.description = some " " ∧
    payloadBlankDesc.toJson.getKey "description" = some (.str " ") :=
  ⟨rfl, rfl, rfl⟩

/-- Claim C10 (amended): every successful payload has its name equal to the
whitespace-trimmed input name; the description key is always present in the
payload — mapped to null exactly when the input description is the empty
string (a whitespace-only description is kept verbatim, not nulled), never
omitted — in contrast to the organization key, which is absent whenever no
organization id was attached. -/
theorem C10_description_key (i : BuilderInput) (p : ProductPayload)
    (hp : build_product_payload_simple i = .ok p) :
    p.name = pyStrip i.name ∧
    p.description = (if i.description = "" then none else some i.description) ∧
    p.toJson.hasKey "description" = true ∧
    (i.description = "" → p.toJson.getKey "description" = some .null) ∧
    (p.organization_id = none → p.toJson.hasKey "organization_id" = false) := by
  rw [build_ok_iff] at hp
  obtain ⟨-, r, -, -, b, -, m, -, o, -, rfl⟩ := hp
  refine ⟨rfl, rfl, ?_, ?_, ?_⟩
  · cases o <;> simp [mkPayload, ProductPayload.toJson, JValue.hasKey]
  · intro hd
    cases o <;> simp [mkPayload, ProductPayload.toJson, JValue.getKey, hd]
  · intro ho
    simp only [mkPayload] at ho
    subst ho
    simp [mkPayload, ProductPayload.toJson, JValue.hasKey]

/-- Witness for C10 (amended) at the concrete blank-description input. -/
theorem C10_witness :
    payloadBlankDesc.name = pyStrip inputBlankDesc.name ∧
    payloadBlankDesc.description =
      (if inputBlankDesc.description = "" then none else some inputBlankDesc.description) ∧
    payloadBlankDesc.toJson.hasKey "description" = true ∧
    (inputBlankDesc.description = "" →
      payloadBlankDesc.toJson.getKey "description" = some .null) ∧
    (payloadBlankDesc.organization_id = none →
      payloadBlankDesc.toJson.hasKey "organization_id" = false) :=
  C10_description_key inputBlankDesc payloadBlankDesc rfl

/-- Counterexample to claim C3: a 304 response (non-2xx) with an empty body
does not yield an error Result — `raise_for_status` raises only for 4xx/5xx,
so the gateway returns the status-only success object. -/
theorem C3_counterexample :
    _make_request "GET" (.response 304 "" none) = .obj [("status", .int 304)] ∧
    isErrorResult (_make_request "GET" (.response 304 "" none)) = false :=
  ⟨rfl, rfl⟩

/-- Claim C3 (amended): for every gateway call, a 2xx response with an empty
body yields a success Result containing only a status field; a 4xx or 5xx
response (rather than every non-2xx response — statuses below 400 follow the
success path) yields an error Result whose status code is the received HTTP
status and whose raw body is the received response text; a transport-level
failure with no response yields an error Result with no status code; and an
unsupported HTTP verb yields an immediate local error Result independent of
any network outcome. -/
theorem C3_gateway_results (method : String) :
    (supportedMethod method = true →
      (∀ s t j, 200 ≤ s → s ≤ 299 → pyStrip t = "" →
        _make_request method (.response s t j) = .obj [("status", .int (s : Int))]) ∧
      (∀ s t j, 400 ≤ s → s < 600 →
        _make_request method (.response s t j) =
          .obj [("error", .str ("HTTP error " ++ toString s)),
                ("status_code", .int (s : Int)), ("body", .str t)]) ∧
      (∀ msg, _make_request method (.failure msg) =
        .obj [("error", .str msg), ("status_code", .null), ("body", .null)])) ∧
    (supportedMethod method = false →
      ∀ o o2, _make_request method o = _make_request method o2 ∧
        _make_request method o =
          .obj [("error", .str ("Unsupported method " ++ method))]) := by
  constructor
  · intro hm
    refine ⟨?_, ?_, ?_⟩
    · intro s t j h1 h2 ht
      simp [_make_request, hm, ht, show ¬(400 ≤ s ∧ s < 600) from by omega]
    · intro s t j h1 h2
      simp [_make_request, hm, show (400 ≤ s ∧ s < 600) from ⟨h1, h2⟩]
    · intro msg
      simp [_make_request, hm]
  · intro hm o o2
    have hall : ∀ o3, _make_request method o3 =
        .obj [("error", .str ("Unsupported method " ++ method))] := by
      intro o3
      simp [_make_request, hm]
    exact ⟨(hall o).trans (hall o2).symm, hall o⟩

/-- Witness for C3 (amended) at concrete calls: 204 with empty body, 404 with
a JSON error body, a connection failure, and the unsupported verb PATCH. -/
theorem C3_witness :
    _make_request "GET" (.response 204 "" none) = .obj [("status", .int 204)] ∧
    _make_request "POST" (.response 404 "\x7b\"detail\": \"Not found\"\x7d" none) =
      .obj [("error", .str ("HTTP error " ++ toString 404)),
            ("status_code", .int 404),
            ("body", .str "\x7b\"detail\": \"Not found\"\x7d")] ∧
    _make_request "GET" (.failure "Connection refused") =
      .obj [("error", .str "Connection refused"), ("status_code", .null), ("body", .null)] ∧
    _make_request "PATCH" (.failure "never sent") =
      .obj [("error", .str ("Unsupported method " ++ "PATCH"))] :=
  ⟨((C3_gateway_results "GET").1 rfl).1 204 "" none (by decide) (by decide) rfl,
   ((C3_gateway_results "POST").1 rfl).2.1 404 _ none (by decide) (by decide),
   ((C3_gateway_results "GET").1 rfl).2.2 "Connection refused",
   ((C3_gateway_results "PATCH").2 rfl (.failure "never sent") (.failure "never sent")).2⟩

/-- A 200 response whose valid JSON body is an object carrying an `error`
key. -/
def collidingOutcome : HttpOutcome :=
  .response 200 "\x7b\"error\": \"boom\"\x7d" (some (.obj [("error", .str "boom")]))

/-- Counterexample to claim C9: a 2xx response whose decoded JSON body itself
carries a top-level `error` key produces a success payload that the error
discriminator of `format_json_output` (`"error" in data`) classifies as an
error record — the two result shapes are not always distinguishable. -/
theorem C9_counterexample :
    requestErrorPath "GET" collidingOutcome = false ∧
    isErrorResult (_make_request "GET" collidingOutcome) = true :=
  ⟨rfl, rfl⟩

/-- Claim C9 (amended): the returned Result matches the error-record shape
(presence of the `error` key) exactly when the call went through an error
path, so success and error results are distinguishable — except when a 2xx
non-blank body decodes to an object itself containing a top-level `error`
key, in which case that success payload is indistinguishable from an error
record. -/
theorem C9_result_shapes (method : String) (o : HttpOutcome)
    (h : successBodyHasError o = false) :
    isErrorResult (_make_request method o) = requestErrorPath method o := by
  by_cases hm : supportedMethod method
  · cases o with
    | failure msg =>
        simp [_make_request, requestErrorPath, hm, isErrorResult, JValue.hasKey]
    | response s t j =>
        by_cases h46 : (400 ≤ s ∧ s < 600)
        · simp [_make_request, requestErrorPath, hm, h46, isErrorResult, JValue.hasKey]
        · by_cases ht : pyStrip t = ""
          · simp [_make_request, requestErrorPath, hm, h46, ht, isErrorResult,
              JValue.hasKey]
          · cases j with
            | none =>
                simp [_make_request, requestErrorPath, hm, h46, ht, isErrorResult,
                  JValue.hasKey]
            | some v =>
                simp [_make_request, requestErrorPath, hm, h46, ht, isErrorResult]
                simpa [successBodyHasError, h46, ht] using h
  · simp [_make_request, requestErrorPath, hm, isErrorResult, JValue.hasKey]

/-- Witness for C9 (amended): at a concrete transport failure the
discriminator agrees with the error path taken. -/
theorem C9_witness :
    isErrorResult (_make_request "GET" (.failure "boom")) =
      requestErrorPath "GET" (.failure "boom") :=
  C9_result_shapes "GET" (.failure "boom") rfl

end PolarDash
